import Mathlib

/-!
Verification of the PowerForecasta dispatch pipeline (src/power_forecasting.py).

Shallow embedding conventions:
* Dates and block indices are natural numbers; all demand / power / cost values
  are exact rationals (the Python floats), so "within floating-point tolerance"
  statements are settled exactly.
* A pandas reference table (Rate.xlsx, OA.xlsx, Bank.xlsx, and each per-generator
  availability sheet) is a two-stage partial map: date row, then block column.
  The source tries both the integer block key and its string form
  (`block if block in row.columns else str(block)`); the two representations are
  collapsed into a single `Block` key here, keeping the two failure stages
  (empty row selection vs missing column) distinct.
* Python exceptions are `Except.error`; a function that can `return None` inside
  its own try/except does so through `Option`.
* The external CBC solve (`prob.solve()`) is modelled by `lpSolve`: a
  deterministic optimal solution (greedy waterfill) of the exact LP the source
  formulates — maximize the sum of the variables subject to the per-variable
  bounds and the remaining-demand budget — returning `none` exactly when the LP
  is infeasible (the source's non-"Optimal" status branch).
* The pulp module state that `setup_optimization_problem` touches (the
  `pulp.LpSolverDefault` global and the identity of the freshly allocated
  `LpProblem` object) is threaded explicitly as `PulpState`.
-/

abbrev Date := Nat
abbrev Block := Nat

/-- DEMAND_CONVERSION_FACTOR = 1000 * 0.25, the single MW-to-kWh factor. -/
def DEMAND_CONVERSION_FACTOR : ℚ := 1000 * (1 / 4)

def MUST_RUN_TYPE : String := "Must run"

def AVAILABLE_TYPE : String := "Available"

/-- One row of generator_mod.xlsx: code, display name, plant type, variable cost. -/
structure Generator where
  code : String
  name : String
  typeOfPlant : String
  variable_cost : ℚ
deriving DecidableEq, Repr

/-- A date-indexed table with per-block columns. `rows d = none` models an empty
row selection for date `d`; `row b = none` models a missing block column. -/
structure RefTable where
  rows : Date → Option (Block → Option ℚ)

/-- The preloaded_generators dictionary: generator code to its availability
sheet, `none` when no such sheet was loaded. -/
abbrev PreloadedData := String → Option RefTable

/-- Writes an explicit value at one (date, block) key, leaving every other key
of the table unchanged. Used to compare a missing key with an explicit entry. -/
def RefTable.insert (t : RefTable) (d : Date) (b : Block) (v : ℚ) : RefTable :=
  ⟨fun d' =>
    if d' = d then
      some fun b' =>
        if b' = b then some v
        else
          match t.rows d' with
          | some row => row b'
          | none => none
    else t.rows d'⟩

/-- The (date, block) key is absent from the table: either no row for the date,
or a row without that block column. -/
def RefTable.missingKey (t : RefTable) (d : Date) (b : Block) : Prop :=
  t.rows d = none ∨ ∃ row, t.rows d = some row ∧ row b = none

/-- adjust_demand_with_open_access: missing date row or block column defaults
OA to 0 and still converts MW to kWh; otherwise subtracts the OA value before
converting. Returns (adjusted demand in kWh, OA value in MW). -/
def adjust_demand_with_open_access (date : Date) (block : Block) (demand_mw : ℚ)
    (df_oa : RefTable) : ℚ × ℚ :=
  match df_oa.rows date with
  | none => (demand_mw * DEMAND_CONVERSION_FACTOR, 0)
  | some row =>
    match row block with
    | none => (demand_mw * DEMAND_CONVERSION_FACTOR, 0)
    | some oa_value_mw =>
      ((demand_mw - oa_value_mw) * DEMAND_CONVERSION_FACTOR, oa_value_mw)

/-- adjust_demand_with_bank: missing date row or block column leaves the kWh
demand unchanged with bank 0; otherwise adds the converted bank energy.
Returns (adjusted demand in kWh, bank value in MW). -/
def adjust_demand_with_bank (date : Date) (block : Block) (demand_kwh : ℚ)
    (df_bank : RefTable) : ℚ × ℚ :=
  match df_bank.rows date with
  | none => (demand_kwh, 0)
  | some row =>
    match row block with
    | none => (demand_kwh, 0)
    | some bank_value_mw =>
      (demand_kwh + bank_value_mw * DEMAND_CONVERSION_FACTOR, bank_value_mw)

/-- load_grid_cost: raises ValueError when the date row or the block column is
missing, otherwise returns the rate. -/
def load_grid_cost (date : Date) (block : Block) (df_grid_cost : RefTable) :
    Except String ℚ :=
  match df_grid_cost.rows date with
  | none => .error "ValueError: no grid cost data found for date"
  | some row =>
    match row block with
    | none => .error "ValueError: no grid cost data found for block"
    | some v => .ok v

/-- Reading one availability value, `generator_data.loc[Date == date, block].values[0]`:
an empty row selection raises IndexError, a missing block column raises KeyError. -/
def lookupPower (tbl : RefTable) (date : Date) (block : Block) : Except String ℚ :=
  match tbl.rows date with
  | none => .error "IndexError"
  | some row =>
    match row block with
    | none => .error "KeyError"
    | some mw => .ok mw

/-- The solver configuration object `pulp.COIN_CMD(path=...)`. -/
structure SolverConfig where
  path : String
deriving DecidableEq, Repr

def cbcSolverConfig : SolverConfig := ⟨"solvers/cbc.exe"⟩

/-- The pulp module state visible to this program: the `pulp.LpSolverDefault`
global (shared by all worker threads) and the identity of the next LpProblem
object the interpreter allocates. -/
structure PulpState where
  nextProbId : Nat
  lpSolverDefault : Option SolverConfig
deriving DecidableEq, Repr

/-- An `pulp.LpProblem` object, identified by its allocation. The numeric
content the source mutates into it (objective, constraint, bounds) is carried
separately, as the list of variable upper bounds and the `lpSolve` call. -/
structure LpProblem where
  probId : Nat
deriving DecidableEq, Repr

/-- setup_optimization_problem: allocates a fresh LpProblem, one decision
variable per generator row of the passed frame (lowBound 0, upBound 0 — the
parameter is named available_generators but process_block passes the full
generator frame), and assigns `pulp.LpSolverDefault = pulp.COIN_CMD(path)`,
a write to the shared pulp module global. Variables are kept positionally
(the source keys them by `g["name"]`, which requires distinct names). -/
def setup_optimization_problem (generators : List Generator) (st : PulpState) :
    (LpProblem × List ℚ) × PulpState :=
  ((⟨st.nextProbId⟩, generators.map fun _ => (0 : ℚ)),
   ⟨st.nextProbId + 1, some cbcSolverConfig⟩)

/-- The loop body of calculate_must_run_power over the must-run rows:
a generator whose code has no preloaded sheet is skipped (`if generator_data
is not None`), one with a sheet but no entry for (date, block) raises, and one
with an entry contributes converted energy and energy times variable cost.
Detail lines are abbreviated to the generator code. -/
def calc_must_run_aux (preloaded : PreloadedData) (date : Date) (block : Block) :
    List Generator → Except String (ℚ × ℚ × List String)
  | [] => .ok (0, 0, [])
  | g :: gs =>
    match preloaded g.code with
    | none => calc_must_run_aux preloaded date block gs
    | some tbl =>
      match lookupPower tbl date block with
      | .error e => .error e
      | .ok power_mw =>
        match calc_must_run_aux preloaded date block gs with
        | .error e => .error e
        | .ok (p, c, d) =>
          .ok (power_mw * DEMAND_CONVERSION_FACTOR + p,
               power_mw * DEMAND_CONVERSION_FACTOR * g.variable_cost + c,
               g.code :: d)

/-- calculate_must_run_power: folds `calc_must_run_aux` over the generators of
type "Must run", in frame order. -/
def calculate_must_run_power (preloaded : PreloadedData)
    (generators : List Generator) (date : Date) (block : Block) :
    Except String (ℚ × ℚ × List String) :=
  calc_must_run_aux preloaded date block
    (generators.filter fun g => decide (g.typeOfPlant = MUST_RUN_TYPE))

/-- The upper-bound update loop of optimize_available_generators: a generator
without a preloaded sheet keeps the upBound 0 set by setup_optimization_problem;
one with a sheet has its (date, block) value read (raising on a missing entry)
and converted to kWh. Positions follow the available-generator rows in order. -/
def availableUpperBounds (preloaded : PreloadedData) (date : Date)
    (block : Block) : List Generator → Except String (List ℚ)
  | [] => .ok []
  | g :: gs =>
    match preloaded g.code with
    | none =>
      match availableUpperBounds preloaded date block gs with
      | .error e => .error e
      | .ok rest => .ok (0 :: rest)
    | some tbl =>
      match lookupPower tbl date block with
      | .error e => .error e
      | .ok mw =>
        match availableUpperBounds preloaded date block gs with
        | .error e => .error e
        | .ok rest => .ok (mw * DEMAND_CONVERSION_FACTOR :: rest)

/-- Greedy waterfill: dispatch each variable up to its upper bound while budget
remains. One deterministic optimal vertex of the LP maximize Σ x with
0 ≤ x i ≤ ub i and Σ x ≤ budget (when every ub is nonnegative and the budget
is nonnegative). -/
def waterfill : List ℚ → ℚ → List ℚ
  | [], _ => []
  | ub :: rest, budget =>
    let x := min ub budget
    x :: waterfill rest (budget - x)

/-- Models `prob.solve()` plus the `LpStatus == "Optimal"` check: the LP
formulated by the source is feasible exactly when every variable upper bound
and the budget are nonnegative, in which case a deterministic optimal solution
is returned; otherwise the solver reports a non-optimal status (`none`). -/
def lpSolve (ubs : List ℚ) (budget : ℚ) : Option (List ℚ) :=
  if (∀ u ∈ ubs, 0 ≤ u) ∧ 0 ≤ budget then some (waterfill ubs budget) else none

/-- optimize_available_generators: filters the "Available" rows, updates the
variable bounds from the availability sheets, sets the maximize-total-dispatch
objective and the Σ ≤ remaining_demand constraint, and solves. On optimal
status returns (total dispatched energy, post-hoc cost Σ dispatch times
variable cost, detail lines); on any other status returns (0, 0, empty).
The LpProblem object and the initial all-zero bound list from setup are taken
as arguments, as in the source. -/
def optimize_available_generators (preloaded : PreloadedData)
    (remaining_demand : ℚ) (date : Date) (block : Block)
    (generators : List Generator) (prob : LpProblem)
    (gen_power_vars : List ℚ) : Except String (ℚ × ℚ × List String) :=
  let available_generators :=
    generators.filter fun g => decide (g.typeOfPlant = AVAILABLE_TYPE)
  match availableUpperBounds preloaded date block available_generators with
  | .error e => .error e
  | .ok ubs =>
    match lpSolve ubs remaining_demand with
    | some xs =>
      .ok (xs.sum,
           ((xs.zip available_generators).map
             fun p => p.1 * p.2.variable_cost).sum,
           (xs.zip available_generators).map fun p => p.2.code)
    | none => .ok (0, 0, [])

/-- The result dictionary built at the end of optimize_power_for_demand.
"Demand" and "Total Demand Met" both hold the demand_kwh argument (the OA- and
bank-adjusted energy demand). "OA Used (MW)" and "Bank Adjustment (MW)" are
None here and are filled in by process_block. -/
structure BlockOutput where
  date : Date
  block : Block
  demand : ℚ
  total_demand_met : ℚ
  must_run_used : ℚ
  available_used : ℚ
  grid_consumption : ℚ
  total_cost : ℚ
  grid_rate : ℚ
  oa_used : Option ℚ
  bank_adjustment : Option ℚ
  must_run_details : List String
  available_details : List String
deriving DecidableEq, Repr

/-- optimize_power_for_demand. Failure channels, as in the source:
`Except.error` is an uncaught Python exception propagating to process_block;
`.ok none` is the explicit `return None` (negative remaining demand, or the
caught grid-cost error). When remaining demand is 0 the source skips the
`if remaining_demand > 0` body, so the local `available_gen_details` is never
assigned and building the result dictionary raises UnboundLocalError. -/
def optimize_power_for_demand (preloaded : PreloadedData)
    (df_grid_cost : RefTable) (demand_kwh : ℚ) (date : Date) (block : Block)
    (generators : List Generator) (prob : LpProblem)
    (gen_power_vars : List ℚ) : Except String (Option BlockOutput) :=
  match calculate_must_run_power preloaded generators date block with
  | .error e => .error e
  | .ok (must_run_power, must_run_cost, must_run_details) =>
    if demand_kwh - must_run_power < 0 then .ok none
    else
      match load_grid_cost date block df_grid_cost with
      | .error _ => .ok none
      | .ok grid_cost =>
        if demand_kwh - must_run_power > 0 then
          match optimize_available_generators preloaded
              (demand_kwh - must_run_power) date block generators prob
              gen_power_vars with
          | .error e => .error e
          | .ok (available_gen_demand_met, available_gen_cost,
                 available_gen_details) =>
            if available_gen_demand_met < demand_kwh - must_run_power then
              .ok (some
                { date := date, block := block, demand := demand_kwh,
                  total_demand_met := demand_kwh,
                  must_run_used := must_run_power,
                  available_used := available_gen_demand_met,
                  grid_consumption :=
                    demand_kwh - must_run_power - available_gen_demand_met,
                  total_cost := must_run_cost + available_gen_cost +
                    (demand_kwh - must_run_power - available_gen_demand_met) *
                      grid_cost,
                  grid_rate := grid_cost, oa_used := none,
                  bank_adjustment := none,
                  must_run_details := must_run_details,
                  available_details := available_gen_details })
            else
              .ok (some
                { date := date, block := block, demand := demand_kwh,
                  total_demand_met := demand_kwh,
                  must_run_used := must_run_power,
                  available_used := available_gen_demand_met,
                  grid_consumption := 0,
                  total_cost := must_run_cost + available_gen_cost,
                  grid_rate := grid_cost, oa_used := none,
                  bank_adjustment := none,
                  must_run_details := must_run_details,
                  available_details := available_gen_details })
        else
          .error "UnboundLocalError: available_gen_details referenced before assignment"

/-- process_block: the whole body runs under try/except, every exception is
caught and mapped to None. Note that when optimize_power_for_demand itself
returns None, the subsequent `result["OA Used (MW)"] = ...` subscript raises
TypeError on None, which the same except block turns into None as well. -/
def process_block (st : PulpState) (preloaded : PreloadedData)
    (df_oa df_bank df_grid_cost : RefTable) (demand : ℚ) (date : Date)
    (block : Block) (df_generators : List Generator) : Option BlockOutput :=
  let oaPair := adjust_demand_with_open_access date block demand df_oa
  let bankPair := adjust_demand_with_bank date block oaPair.1 df_bank
  let setupOut := setup_optimization_problem df_generators st
  match optimize_power_for_demand preloaded df_grid_cost bankPair.1 date block
      df_generators setupOut.1.1 setupOut.1.2 with
  | .error _ => none
  | .ok none => none
  | .ok (some r) =>
    some { r with oa_used := some oaPair.2, bank_adjustment := some bankPair.2 }

/-- One row of Demand.xlsx: a date and the per-block demand values in MW. -/
structure DemandRow where
  date : Date
  values : Block → ℚ

/-- One row of the final results frame after run_normal adds the derived
Net Demand column and reorders the columns. -/
structure ReportRow where
  date : Date
  block : Block
  demand : ℚ
  oa_used : Option ℚ
  bank_adjustment : Option ℚ
  net_demand : ℚ
  must_run_used : ℚ
  must_run_details : List String
  available_used : ℚ
  available_details : List String
  grid_consumption : ℚ
  grid_rate : ℚ
  total_cost : ℚ
deriving DecidableEq, Repr

/-- The derived column of run_normal:
Net Demand (kWh) = Demand − OA Used (MW) * F + Bank Adjustment (MW) * F.
In every collected (successful) result both Option fields are `some`; `getD 0`
only supplies the never-taken None case. -/
def mkReportRow (r : BlockOutput) : ReportRow :=
  { date := r.date, block := r.block, demand := r.demand, oa_used := r.oa_used,
    bank_adjustment := r.bank_adjustment,
    net_demand := r.demand - (r.oa_used.getD 0) * DEMAND_CONVERSION_FACTOR
      + (r.bank_adjustment.getD 0) * DEMAND_CONVERSION_FACTOR,
    must_run_used := r.must_run_used, must_run_details := r.must_run_details,
    available_used := r.available_used,
    available_details := r.available_details,
    grid_consumption := r.grid_consumption, grid_rate := r.grid_rate,
    total_cost := r.total_cost }

/-- The futures list of run_normal: one process_block task per (date, block)
of the filtered demand rows crossed with the inclusive block range, in
submission order. -/
def blockFutures (st : PulpState) (preloaded : PreloadedData)
    (df_oa df_bank df_grid_cost : RefTable) (df_demand : List DemandRow)
    (df_generators : List Generator) (start_date end_date : Date)
    (start_block end_block : Nat) : List (Option BlockOutput) :=
  let df_filtered :=
    df_demand.filter fun r => decide (start_date ≤ r.date ∧ r.date ≤ end_date)
  df_filtered.flatMap fun r =>
    (List.range' start_block (end_block + 1 - start_block)).map fun block =>
      process_block st preloaded df_oa df_bank df_grid_cost (r.values block)
        r.date block df_generators

/-- run_normal. `completion_order` lists the futures by index in the order
`as_completed` yields them (an arbitrary interleaving of the worker threads);
None results are dropped, the derived Net Demand column is added and the
columns reordered. The source applies no row sort, so the report rows stay in
completion order. -/
def run_normal (st : PulpState) (preloaded : PreloadedData)
    (df_oa df_bank df_grid_cost : RefTable) (df_demand : List DemandRow)
    (df_generators : List Generator) (start_date end_date : Date)
    (start_block end_block : Nat) (completion_order : List Nat) :
    List ReportRow :=
  let futures := blockFutures st preloaded df_oa df_bank df_grid_cost df_demand
    df_generators start_date end_date start_block end_block
  let results := (completion_order.filterMap fun i => futures[i]?).filterMap id
  results.map mkReportRow

/-! Helper lemmas about the modelled solver. -/

theorem waterfill_forall₂_le : ∀ (ubs : List ℚ) (b : ℚ),
    List.Forall₂ (· ≤ ·) (waterfill ubs b) ubs
  | [], _ => List.Forall₂.nil
  | u :: rest, b =>
    List.Forall₂.cons (min_le_left u b) (waterfill_forall₂_le rest (b - min u b))

theorem waterfill_sum (ubs : List ℚ) : ∀ b : ℚ, 0 ≤ b → (∀ u ∈ ubs, 0 ≤ u) →
    (waterfill ubs b).sum = min ubs.sum b := by
  induction ubs with
  | nil =>
    intro b hb _
    simp [waterfill, min_eq_left hb]
  | cons u rest ih =>
    intro b hb hu
    have hu0 : 0 ≤ u := hu u (List.mem_cons_self u rest)
    have hrest : ∀ v ∈ rest, 0 ≤ v := fun v hv => hu v (List.mem_cons_of_mem u hv)
    have hs : 0 ≤ rest.sum := List.sum_nonneg hrest
    have hx : 0 ≤ b - min u b := by
      rcases le_total u b with h | h
      · rw [min_eq_left h]; linarith
      · rw [min_eq_right h]; linarith
    simp only [waterfill, List.sum_cons]
    rw [ih (b - min u b) hx hrest]
    rcases le_total u b with h | h
    · rw [min_eq_left h]
      rcases le_total rest.sum (b - u) with h2 | h2
      · rw [min_eq_left h2, min_eq_left (by linarith)]
      · rw [min_eq_right h2, min_eq_right (by linarith)]
        ring
    · rw [min_eq_right h, sub_self, min_eq_right hs,
        min_eq_right (by linarith : b ≤ u + rest.sum)]
      ring

theorem lpSolve_some_iff (ubs : List ℚ) (b : ℚ) (xs : List ℚ) :
    lpSolve ubs b = some xs ↔
      (∀ u ∈ ubs, 0 ≤ u) ∧ 0 ≤ b ∧ xs = waterfill ubs b := by
  unfold lpSolve
  split
  · rename_i h
    constructor
    · intro hx
      exact ⟨h.1, h.2, (Option.some.injEq _ _ ▸ hx).symm⟩
    · intro ⟨_, _, hx⟩
      exact congrArg some hx.symm
  · rename_i h
    constructor
    · intro hx
      exact absurd hx (by simp)
    · intro ⟨h1, h2, _⟩
      exact absurd ⟨h1, h2⟩ h

theorem optimize_available_ok_met (preloaded : PreloadedData) (rem : ℚ)
    (date : Date) (block : Block) (generators : List Generator)
    (prob : LpProblem) (vars : List ℚ) (met acost : ℚ) (adet : List String)
    (hrem : 0 ≤ rem)
    (h : optimize_available_generators preloaded rem date block generators prob
      vars = .ok (met, acost, adet)) : met ≤ rem := by
  simp only [optimize_available_generators] at h
  split at h
  · exact absurd h (by simp)
  · rename_i ubs hubs
    split at h
    · rename_i xs hxs
      rcases (lpSolve_some_iff ubs rem xs).mp hxs with ⟨hu, hb, hwx⟩
      have hsum : xs.sum = min ubs.sum rem := hwx ▸ waterfill_sum ubs rem hb hu
      have : met = xs.sum := by
        have := h
        simp only [Except.ok.injEq, Prod.mk.injEq] at this
        exact this.1.symm
      rw [this, hsum]
      exact min_le_right _ _
    · have : met = 0 := by
        have := h
        simp only [Except.ok.injEq, Prod.mk.injEq] at this
        exact this.1.symm
      rw [this]
      exact hrem

/-- Every successful optimize_power_for_demand result satisfies energy
conservation against the demand_kwh argument, and stores that argument in its
Demand field. -/
theorem optimize_conservation (preloaded : PreloadedData) (df_grid : RefTable)
    (dkwh : ℚ) (date : Date) (block : Block) (gens : List Generator)
    (prob : LpProblem) (vars : List ℚ) (r : BlockOutput)
    (h : optimize_power_for_demand preloaded df_grid dkwh date block gens prob
      vars = .ok (some r)) :
    r.must_run_used + r.available_used + r.grid_consumption = dkwh ∧
      r.demand = dkwh := by
  unfold optimize_power_for_demand at h
  split at h
  · exact absurd h (by simp)
  · rename_i p c dd hcalc
    split at h
    · exact absurd h (by simp)
    · rename_i hneg
      split at h
      · exact absurd h (by simp)
      · rename_i gc hgc
        split at h
        · rename_i hpos
          split at h
          · exact absurd h (by simp)
          · rename_i met ac ad hopt
            have hle : met ≤ dkwh - p :=
              optimize_available_ok_met preloaded (dkwh - p) date block gens
                prob vars met ac ad (le_of_lt hpos) hopt
            split at h
            · simp only [Except.ok.injEq, Option.some.injEq] at h
              subst h
              constructor
              · simp only []
                ring
              · rfl
            · rename_i hnlt
              simp only [Except.ok.injEq, Option.some.injEq] at h
              subst h
              constructor
              · simp only []
                have : met = dkwh - p := le_antisymm hle (not_lt.mp hnlt)
                rw [this]
                ring
              · rfl
        · exact absurd h (by simp)

/-! Concrete example data used by witnesses and counterexamples. -/

/-- Initial pulp module state: no default solver configured yet. -/
def st0 : PulpState := ⟨0, none⟩

/-- No generator availability sheets loaded. -/
def preEmpty : PreloadedData := fun _ => none

/-- A reference table with no rows at all. -/
def tableEmpty : RefTable := ⟨fun _ => none⟩

/-- Grid cost table with rate 5 for every block of date 1. -/
def gridRate5 : RefTable := ⟨fun d => if d = 1 then some fun _ => some 5 else none⟩

/-- C1: for every (date, block) whose dispatch succeeds, must-run energy plus
available-generator energy plus grid energy equals the net demand (the OA- and
bank-adjusted demand in kWh) passed into the block's optimization — exactly,
hence within any floating-point tolerance; the result's Demand field also
holds that net demand. -/
theorem C1_block_energy_conservation (st : PulpState)
    (preloaded : PreloadedData) (df_oa df_bank df_grid_cost : RefTable)
    (demand : ℚ) (date : Date) (block : Block) (gens : List Generator)
    (r : BlockOutput)
    (h : process_block st preloaded df_oa df_bank df_grid_cost demand date
      block gens = some r) :
    r.must_run_used + r.available_used + r.grid_consumption
      = (adjust_demand_with_bank date block
          (adjust_demand_with_open_access date block demand df_oa).1 df_bank).1
      ∧ r.demand
      = (adjust_demand_with_bank date block
          (adjust_demand_with_open_access date block demand df_oa).1 df_bank).1 := by
  simp only [process_block] at h
  split at h
  · exact absurd h (by simp)
  · exact absurd h (by simp)
  · rename_i r0 heq
    simp only [Option.some.injEq] at h
    subst h
    simpa using optimize_conservation _ _ _ _ _ _ _ _ _ heq

/-- The successful block result of the concrete C1 scenario: date 1, block 1,
demand 1 MW, no generators, grid rate 5, empty OA and Bank tables. -/
def rC1 : BlockOutput :=
  { date := 1, block := 1, demand := 250, total_demand_met := 250,
    must_run_used := 0, available_used := 0, grid_consumption := 250,
    total_cost := 1250, grid_rate := 5, oa_used := some 0,
    bank_adjustment := some 0, must_run_details := [],
    available_details := [] }

/-- Witness for C1 at a concrete successful dispatch. -/
theorem C1_block_energy_conservation_witness :
    rC1.must_run_used + rC1.available_used + rC1.grid_consumption
      = (adjust_demand_with_bank 1 1
          (adjust_demand_with_open_access 1 1 1 tableEmpty).1 tableEmpty).1
      ∧ rC1.demand
      = (adjust_demand_with_bank 1 1
          (adjust_demand_with_open_access 1 1 1 tableEmpty).1 tableEmpty).1 :=
  C1_block_energy_conservation st0 preEmpty tableEmpty tableEmpty gridRate5
    1 1 1 [] rC1 (by
      norm_num [process_block, setup_optimization_problem,
        adjust_demand_with_open_access, adjust_demand_with_bank, tableEmpty,
        optimize_power_for_demand, calculate_must_run_power, calc_must_run_aux,
        load_grid_cost, gridRate5, optimize_available_generators,
        availableUpperBounds, lpSolve, waterfill, DEMAND_CONVERSION_FACTOR,
        rC1, st0, preEmpty])

/-- C4: whenever the net demand minus the must-run energy is negative, the
block returns None (excluded from the report) — holding for every grid table
and every availability content of the available generators, since the early
return precedes both the grid lookup and the optimizer call; the negative
value is never clamped to 0 into a successful result. -/
theorem C4_negative_remaining_fails (st : PulpState)
    (preloaded : PreloadedData) (df_oa df_bank df_grid_cost : RefTable)
    (demand : ℚ) (date : Date) (block : Block) (gens : List Generator)
    (p c : ℚ) (dd : List String)
    (hcalc : calculate_must_run_power preloaded gens date block = .ok (p, c, dd))
    (hneg : (adjust_demand_with_bank date block
        (adjust_demand_with_open_access date block demand df_oa).1 df_bank).1
        - p < 0) :
    process_block st preloaded df_oa df_bank df_grid_cost demand date block
      gens = none := by
  simp only [process_block, optimize_power_for_demand, hcalc, if_pos hneg]

/-- Availability sheet with 2 MW at (date 1, block 1). -/
def availM2 : RefTable :=
  ⟨fun d => if d = 1 then some fun b => if b = 1 then some 2 else none
    else none⟩

/-- Preloaded data holding only the sheet of generator code M. -/
def preM2 : PreloadedData := fun c => if c = "M" then some availM2 else none

/-- A must-run generator with code M and variable cost 2. -/
def genM : Generator := ⟨"M", "M", "Must run", 2⟩

/-- Witness for C4: 1 MW demand (250 kWh net) against 2 MW (500 kWh) of
must-run output gives a negative remaining demand and a failed block. -/
theorem C4_negative_remaining_fails_witness :
    process_block st0 preM2 tableEmpty tableEmpty gridRate5 1 1 1 [genM]
      = none :=
  C4_negative_remaining_fails st0 preM2 tableEmpty tableEmpty gridRate5 1 1 1
    [genM] 500 1000 ["M"]
    (by norm_num [calculate_must_run_power, calc_must_run_aux, preM2, availM2,
      genM, lookupPower, MUST_RUN_TYPE, DEMAND_CONVERSION_FACTOR])
    (by norm_num [adjust_demand_with_bank, adjust_demand_with_open_access,
      tableEmpty, DEMAND_CONVERSION_FACTOR])

/-- C5: a (date, block) key absent from the OA table (respectively the Bank
table) makes the demand adjustment return exactly what it returns for an
explicit entry of value 0 at that key, with reported adjustment value 0, and
without any error. -/
theorem C5_missing_key_equals_explicit_zero (date : Date) (block : Block)
    (demand_mw demand_kwh : ℚ) (df_oa df_bank : RefTable)
    (hoa : df_oa.missingKey date block)
    (hbank : df_bank.missingKey date block) :
    adjust_demand_with_open_access date block demand_mw df_oa
      = adjust_demand_with_open_access date block demand_mw
          (df_oa.insert date block 0)
    ∧ (adjust_demand_with_open_access date block demand_mw df_oa).2 = 0
    ∧ adjust_demand_with_bank date block demand_kwh df_bank
      = adjust_demand_with_bank date block demand_kwh
          (df_bank.insert date block 0)
    ∧ (adjust_demand_with_bank date block demand_kwh df_bank).2 = 0 := by
  refine ⟨?_, ?_, ?_, ?_⟩
  · rcases hoa with h | ⟨row, hrow, hb⟩
    · simp [adjust_demand_with_open_access, RefTable.insert, h]
    · simp [adjust_demand_with_open_access, RefTable.insert, hrow, hb]
  · rcases hoa with h | ⟨row, hrow, hb⟩
    · simp [adjust_demand_with_open_access, h]
    · simp [adjust_demand_with_open_access, hrow, hb]
  · rcases hbank with h | ⟨row, hrow, hb⟩
    · simp [adjust_demand_with_bank, RefTable.insert, h]
    · simp [adjust_demand_with_bank, RefTable.insert, hrow, hb]
  · rcases hbank with h | ⟨row, hrow, hb⟩
    · simp [adjust_demand_with_bank, h]
    · simp [adjust_demand_with_bank, hrow, hb]

/-- Witness for C5 on the empty OA and Bank tables. -/
theorem C5_missing_key_equals_explicit_zero_witness :
    adjust_demand_with_open_access 1 1 100 tableEmpty
      = adjust_demand_with_open_access 1 1 100 (tableEmpty.insert 1 1 0)
    ∧ (adjust_demand_with_open_access 1 1 100 tableEmpty).2 = 0
    ∧ adjust_demand_with_bank 1 1 25000 tableEmpty
      = adjust_demand_with_bank 1 1 25000 (tableEmpty.insert 1 1 0)
    ∧ (adjust_demand_with_bank 1 1 25000 tableEmpty).2 = 0 :=
  C5_missing_key_equals_explicit_zero 1 1 100 25000 tableEmpty tableEmpty
    (Or.inl rfl) (Or.inl rfl)

/-- If some must-run row has a preloaded sheet but its (date, block) value
read raises, the whole must-run fold raises (the first such generator's
exception propagates). -/
theorem calc_must_run_aux_error (preloaded : PreloadedData) (date : Date)
    (block : Block) (gs : List Generator) (g : Generator) (hg : g ∈ gs)
    (tbl : RefTable) (hsheet : preloaded g.code = some tbl) (e : String)
    (hmiss : lookupPower tbl date block = .error e) :
    ∃ e', calc_must_run_aux preloaded date block gs = .error e' := by
  induction gs with
  | nil => cases hg
  | cons g0 rest ih =>
    rcases List.mem_cons.mp hg with rfl | hmem
    · simp only [calc_must_run_aux, hsheet, hmiss]
      exact ⟨e, rfl⟩
    · rcases ih hmem with ⟨e', he'⟩
      simp only [calc_must_run_aux]
      cases hh : preloaded g0.code with
      | none => exact ⟨e', by simp [he']⟩
      | some tbl2 =>
        cases hl : lookupPower tbl2 date block with
        | error e2 => exact ⟨e2, by simp [hl]⟩
        | ok mw => exact ⟨e', by simp [hl, he']⟩

/-- C2 (amended): a must-run generator that HAS an availability sheet but no
entry for the requested (date, block) makes the block fail — the lookup
exception propagates out of calculate_must_run_power and process_block maps
it to None. (A must-run generator with no availability sheet at all is,
contrary to the original claim, silently skipped; see the counterexample.) -/
theorem C2_missing_entry_fails_block (st : PulpState)
    (preloaded : PreloadedData) (df_oa df_bank df_grid_cost : RefTable)
    (demand : ℚ) (date : Date) (block : Block) (gens : List Generator)
    (g : Generator) (tbl : RefTable) (e : String) (hg : g ∈ gens)
    (hmr : g.typeOfPlant = MUST_RUN_TYPE)
    (hsheet : preloaded g.code = some tbl)
    (hmiss : lookupPower tbl date block = .error e) :
    process_block st preloaded df_oa df_bank df_grid_cost demand date block
      gens = none := by
  have hgf : g ∈ gens.filter fun g => decide (g.typeOfPlant = MUST_RUN_TYPE) :=
    List.mem_filter.mpr ⟨hg, by simp [hmr]⟩
  obtain ⟨e', he'⟩ :=
    calc_must_run_aux_error preloaded date block _ g hgf tbl hsheet e hmiss
  simp only [process_block, optimize_power_for_demand,
    calculate_must_run_power, he']

/-- Preloaded data where generator code M has a sheet with no rows, so every
(date, block) read on it raises. -/
def preMEmptySheet : PreloadedData :=
  fun c => if c = "M" then some tableEmpty else none

/-- Witness for the amended C2: must-run generator M has an availability sheet
with no entry for (1, 1), and the block fails. -/
theorem C2_missing_entry_fails_block_witness :
    process_block st0 preMEmptySheet tableEmpty tableEmpty gridRate5 1 1 1
      [genM] = none :=
  C2_missing_entry_fails_block st0 preMEmptySheet tableEmpty tableEmpty
    gridRate5 1 1 1 [genM] genM tableEmpty "IndexError"
    (by simp) (by simp [genM, MUST_RUN_TYPE])
    (by simp [preMEmptySheet, genM])
    (by simp [lookupPower, tableEmpty])

/-- Counterexample to C2 as stated: must-run generator M has NO availability
sheet at all (preEmpty), yet the block SUCCEEDS (the result is some, not a
failure) and the generator silently contributes 0 must-run energy. -/
theorem C2_counterexample :
    (process_block st0 preEmpty tableEmpty tableEmpty gridRate5 1 1 1
      [genM]).map (fun r => r.must_run_used) = some 0 := by
  norm_num [process_block, setup_optimization_problem,
    adjust_demand_with_open_access, adjust_demand_with_bank, tableEmpty,
    optimize_power_for_demand, calculate_must_run_power, calc_must_run_aux,
    load_grid_cost, gridRate5, optimize_available_generators,
    availableUpperBounds, lpSolve, waterfill, DEMAND_CONVERSION_FACTOR,
    st0, preEmpty, genM, MUST_RUN_TYPE, AVAILABLE_TYPE]

/-- C3 (amended): once the must-run stage succeeds and the remaining demand is
nonnegative, the block fails by returning None because of the grid rate if and
only if the grid-rate entry for (date, block) is absent — with no condition on
the residual: the source loads the grid rate unconditionally, before the
optimizer runs, so even a block whose residual would be 0 fails when the rate
is missing. -/
theorem C3_grid_rate_failure_iff (preloaded : PreloadedData)
    (df_grid : RefTable) (dkwh : ℚ) (date : Date) (block : Block)
    (gens : List Generator) (prob : LpProblem) (vars : List ℚ) (p c : ℚ)
    (dd : List String)
    (hcalc : calculate_must_run_power preloaded gens date block = .ok (p, c, dd))
    (hrem : 0 ≤ dkwh - p) :
    (optimize_power_for_demand preloaded df_grid dkwh date block gens prob
        vars = .ok none)
      ↔ ∃ e, load_grid_cost date block df_grid = .error e := by
  simp only [optimize_power_for_demand, hcalc, if_neg (not_lt.mpr hrem)]
  cases hg : load_grid_cost date block df_grid with
  | error e => simp
  | ok gc =>
    constructor
    · intro hx
      exfalso
      split at hx
      · rename_i e2 heq
        simp at heq
      · rename_i gc2 heq
        split at hx
        · split at hx
          · simp at hx
          · split at hx
            · simp at hx
            · simp at hx
        · simp at hx
    · rintro ⟨e, he⟩
      simp at he

/-- Witness for the amended C3: no generators, 250 kWh net demand, empty grid
table — the failure condition and the missing-rate condition both hold. -/
theorem C3_grid_rate_failure_iff_witness :
    (optimize_power_for_demand preEmpty tableEmpty 250 1 1 [] ⟨0⟩ []
        = .ok none)
      ↔ ∃ e, load_grid_cost 1 1 tableEmpty = .error e :=
  C3_grid_rate_failure_iff preEmpty tableEmpty 250 1 1 [] ⟨0⟩ [] 0 0 []
    (by norm_num [calculate_must_run_power, calc_must_run_aux, preEmpty])
    (by norm_num)

/-- An available generator with code A and variable cost 3. -/
def genA : Generator := ⟨"A", "A", "Available", 3⟩

/-- Availability sheet with 1 MW at (date 1, block 1). -/
def availA1 : RefTable :=
  ⟨fun d => if d = 1 then some fun b => if b = 1 then some 1 else none
    else none⟩

/-- Preloaded data holding only the sheet of generator code A. -/
def preA1 : PreloadedData := fun c => if c = "A" then some availA1 else none

/-- Counterexample to C3 as stated: demand 1 MW, one available generator whose
capacity (250 kWh) equals the whole remaining demand, so the residual is 0 —
with a grid rate present the block succeeds with grid consumption 0, yet with
the grid-rate entry absent the very same block FAILS, contradicting the claim
that a zero residual shields the block from the missing rate. -/
theorem C3_counterexample :
    process_block st0 preA1 tableEmpty tableEmpty tableEmpty 1 1 1 [genA]
        = none
    ∧ (process_block st0 preA1 tableEmpty tableEmpty gridRate5 1 1 1
        [genA]).map (fun r => r.grid_consumption) = some 0 := by
  constructor <;>
    norm_num [process_block, setup_optimization_problem,
      adjust_demand_with_open_access, adjust_demand_with_bank, tableEmpty,
      optimize_power_for_demand, calculate_must_run_power, calc_must_run_aux,
      load_grid_cost, gridRate5, optimize_available_generators,
      availableUpperBounds, lpSolve, waterfill, lookupPower, min_def,
      DEMAND_CONVERSION_FACTOR, st0, preA1, availA1, genA, MUST_RUN_TYPE,
      AVAILABLE_TYPE]

/-- C8: for every successful BlockResult whose available-generator bounds (the
converted availability values, with 0 for a generator without a sheet) are
nonnegative, the dispatch vector stays below the per-generator bounds
componentwise, the total available energy equals the solver optimum, and the
total is at most both the sum of the bounds and the remaining demand passed
to the optimizer (demand_kwh minus the must-run energy). -/
theorem C8_capacity_bounds (preloaded : PreloadedData) (df_grid : RefTable)
    (dkwh : ℚ) (date : Date) (block : Block) (gens : List Generator)
    (prob : LpProblem) (vars : List ℚ) (r : BlockOutput) (ubs : List ℚ)
    (hubs : availableUpperBounds preloaded date block
      (gens.filter fun g => decide (g.typeOfPlant = AVAILABLE_TYPE)) = .ok ubs)
    (hpos : ∀ u ∈ ubs, 0 ≤ u)
    (h : optimize_power_for_demand preloaded df_grid dkwh date block gens prob
      vars = .ok (some r)) :
    List.Forall₂ (· ≤ ·) (waterfill ubs (dkwh - r.must_run_used)) ubs
    ∧ r.available_used = (waterfill ubs (dkwh - r.must_run_used)).sum
    ∧ r.available_used ≤ ubs.sum
    ∧ r.available_used ≤ dkwh - r.must_run_used := by
  unfold optimize_power_for_demand at h
  split at h
  · exact absurd h (by simp)
  · rename_i p c dd hcalc
    split at h
    · exact absurd h (by simp)
    · rename_i hneg
      split at h
      · exact absurd h (by simp)
      · rename_i gc hgc
        split at h
        · rename_i hpos'
          have hfeas : lpSolve ubs (dkwh - p) =
              some (waterfill ubs (dkwh - p)) := by
            unfold lpSolve
            exact if_pos ⟨hpos, le_of_lt hpos'⟩
          split at h
          · exact absurd h (by simp)
          · rename_i met ac ad hopt
            have hmet : met = (waterfill ubs (dkwh - p)).sum := by
              simp only [optimize_available_generators, hubs, hfeas] at hopt
              simp only [Except.ok.injEq, Prod.mk.injEq] at hopt
              exact hopt.1.symm
            have hsum : (waterfill ubs (dkwh - p)).sum =
                min ubs.sum (dkwh - p) :=
              waterfill_sum ubs (dkwh - p) (le_of_lt hpos') hpos
            have h3 : met ≤ ubs.sum := by
              rw [hmet, hsum]; exact min_le_left _ _
            have h4 : met ≤ dkwh - p := by
              rw [hmet, hsum]; exact min_le_right _ _
            split at h
            · simp only [Except.ok.injEq, Option.some.injEq] at h
              subst h
              exact ⟨waterfill_forall₂_le ubs _, hmet, h3, h4⟩
            · simp only [Except.ok.injEq, Option.some.injEq] at h
              subst h
              exact ⟨waterfill_forall₂_le ubs _, hmet, h3, h4⟩
        · exact absurd h (by simp)

/-- The successful block result of the concrete C8 scenario: one available
generator (1 MW at (1,1), variable cost 3) fully dispatched against a 250 kWh
remaining demand. -/
def rC8 : BlockOutput :=
  { date := 1, block := 1, demand := 250, total_demand_met := 250,
    must_run_used := 0, available_used := 250, grid_consumption := 0,
    total_cost := 750, grid_rate := 5, oa_used := none,
    bank_adjustment := none, must_run_details := [],
    available_details := ["A"] }

/-- Witness for C8 at a concrete successful dispatch. -/
theorem C8_capacity_bounds_witness :
    List.Forall₂ (· ≤ ·)
      (waterfill [250] ((250 : ℚ) - rC8.must_run_used)) [250]
    ∧ rC8.available_used
      = (waterfill [250] ((250 : ℚ) - rC8.must_run_used)).sum
    ∧ rC8.available_used ≤ ([250] : List ℚ).sum
    ∧ rC8.available_used ≤ (250 : ℚ) - rC8.must_run_used :=
  C8_capacity_bounds preA1 gridRate5 250 1 1 [genA] ⟨0⟩ [0] rC8 [250]
    (by norm_num [availableUpperBounds, preA1, availA1, lookupPower, genA,
      DEMAND_CONVERSION_FACTOR, AVAILABLE_TYPE])
    (by intro u hu; rw [List.mem_singleton] at hu; subst hu; norm_num)
    (by norm_num [optimize_power_for_demand, calculate_must_run_power,
      calc_must_run_aux, preA1, availA1, genA, load_grid_cost, gridRate5,
      optimize_available_generators, availableUpperBounds, lookupPower,
      lpSolve, waterfill, min_def, DEMAND_CONVERSION_FACTOR, MUST_RUN_TYPE,
      AVAILABLE_TYPE, rC8])

/-- C9 (amended): each call to setup_optimization_problem does construct a
fresh LP problem instance (the interpreter's next allocation, so two tasks
never share one), but it does NOT give the task its own solver configuration:
every call overwrites the shared pulp.LpSolverDefault module global with a new
COIN_CMD configuration, and prob.solve() reads that global, so solver
configuration is shared mutable state written by every concurrent task. -/
theorem C9_fresh_problem_shared_solver_default (generators : List Generator)
    (st : PulpState) :
    (setup_optimization_problem generators st).1.1.probId = st.nextProbId
    ∧ (setup_optimization_problem generators st).2.nextProbId
      = st.nextProbId + 1
    ∧ (setup_optimization_problem generators st).2.lpSolverDefault
      = some cbcSolverConfig :=
  ⟨rfl, rfl, rfl⟩

/-- Counterexample to C9 as stated: a single task's setup call mutates the
shared pulp module global lpSolverDefault (here from its unset initial state),
so solver configuration is not per-task. -/
theorem C9_counterexample :
    (setup_optimization_problem [] st0).2.lpSolverDefault
      ≠ st0.lpSolverDefault := by
  simp [setup_optimization_problem, st0]

/-- C10 (code-bug evaluation): with remaining demand exactly 0 (here net
demand 0 and no generators) and the grid rate PRESENT, building the result
dictionary raises UnboundLocalError — available_gen_details is only assigned
inside the `remaining_demand > 0` branch — so the block fails instead of
producing the successful all-zero decomposition the claim describes. -/
theorem C10_zero_remaining_raises :
    optimize_power_for_demand preEmpty gridRate5 0 1 1 [] ⟨0⟩ []
      = .error
        "UnboundLocalError: available_gen_details referenced before assignment"
    ∧ process_block st0 preEmpty tableEmpty tableEmpty gridRate5 0 1 1 []
      = none := by
  constructor <;>
    norm_num [process_block, setup_optimization_problem,
      adjust_demand_with_open_access, adjust_demand_with_bank, tableEmpty,
      optimize_power_for_demand, calculate_must_run_power, calc_must_run_aux,
      load_grid_cost, gridRate5, st0, preEmpty]

/-- OA table with 10 MW at (date 1, block 1). -/
def oaRow10 : RefTable :=
  ⟨fun d => if d = 1 then some fun b => if b = 1 then some 10 else none
    else none⟩

/-- Demand sheet row: date 1, 100 MW in every block. -/
def demandRow100 : DemandRow := ⟨1, fun _ => 100⟩

/-- C7 (code-bug evaluation): raw demand 100 MW with a 10 MW OA entry. The
result's Demand field holds the OA- and bank-ADJUSTED energy demand
(22500 kWh), not the raw demand, and run_normal then subtracts the OA again
when deriving the Net Demand column, yielding 20000 kWh — disagreeing with
the DemandAdjuster's net demand of 22500 kWh that the claim requires. -/
theorem C7_net_demand_double_adjusted :
    (run_normal st0 preEmpty oaRow10 tableEmpty gridRate5 [demandRow100] []
        1 1 1 1 [0]).map (fun r => (r.demand, r.net_demand))
      = [(22500, 20000)]
    ∧ (adjust_demand_with_bank 1 1
        (adjust_demand_with_open_access 1 1 100 oaRow10).1 tableEmpty).1
      = 22500 := by
  constructor <;>
    norm_num [run_normal, blockFutures, mkReportRow, process_block,
      setup_optimization_problem, adjust_demand_with_open_access,
      adjust_demand_with_bank, tableEmpty, optimize_power_for_demand,
      calculate_must_run_power, calc_must_run_aux, load_grid_cost, gridRate5,
      optimize_available_generators, availableUpperBounds, lpSolve, waterfill,
      List.range', List.filterMap_cons, List.filterMap_nil,
      List.getElem?_cons_zero, List.getElem?_cons_succ, List.getElem?_nil,
      id_eq, Option.getD_some, DEMAND_CONVERSION_FACTOR, st0, preEmpty,
      oaRow10, demandRow100]

/-- C6 (amended): run_normal applies no row sort — the report rows follow the
completion order — but for any two completion orders that are permutations of
each other the two reports are permutations of each other: the multiset of
rows (and hence every row's values) is completion-order independent. -/
theorem C6_report_completion_order_perm (st : PulpState)
    (preloaded : PreloadedData) (df_oa df_bank df_grid_cost : RefTable)
    (df_demand : List DemandRow) (gens : List Generator) (sd ed : Date)
    (sb eb : Nat) (o1 o2 : List Nat) (hperm : o1.Perm o2) :
    (run_normal st preloaded df_oa df_bank df_grid_cost df_demand gens sd ed
        sb eb o1).Perm
      (run_normal st preloaded df_oa df_bank df_grid_cost df_demand gens sd
        ed sb eb o2) := by
  simp only [run_normal]
  exact ((hperm.filterMap _).filterMap _).map _

/-- Witness for the amended C6 on a concrete two-block day and the two
opposite completion orders. -/
theorem C6_report_completion_order_perm_witness :
    (run_normal st0 preEmpty tableEmpty tableEmpty gridRate5 [demandRow100]
        [] 1 1 1 2 [0, 1]).Perm
      (run_normal st0 preEmpty tableEmpty tableEmpty gridRate5 [demandRow100]
        [] 1 1 1 2 [1, 0]) :=
  C6_report_completion_order_perm st0 preEmpty tableEmpty tableEmpty gridRate5
    [demandRow100] [] 1 1 1 2 [0, 1] [1, 0] (by decide)

/-- Counterexample to C6 as stated: same inputs, two completion orders. Under
the order [1, 0] the report's rows carry blocks [2, 1] — not sorted by date
then block — and the two runs produce different Reports, so the Report is not
completion-order independent. -/
theorem C6_counterexample :
    (run_normal st0 preEmpty tableEmpty tableEmpty gridRate5 [demandRow100]
        [] 1 1 1 2 [1, 0]).map (fun r => r.block) = [2, 1]
    ∧ run_normal st0 preEmpty tableEmpty tableEmpty gridRate5 [demandRow100]
        [] 1 1 1 2 [1, 0]
      ≠ run_normal st0 preEmpty tableEmpty tableEmpty gridRate5
        [demandRow100] [] 1 1 1 2 [0, 1] := by
  constructor <;>
    norm_num [run_normal, blockFutures, mkReportRow, process_block,
      setup_optimization_problem, adjust_demand_with_open_access,
      adjust_demand_with_bank, tableEmpty, optimize_power_for_demand,
      calculate_must_run_power, calc_must_run_aux, load_grid_cost, gridRate5,
      optimize_available_generators, availableUpperBounds, lpSolve, waterfill,
      List.range', List.filterMap_cons, List.filterMap_nil,
      List.getElem?_cons_zero, List.getElem?_cons_succ, List.getElem?_nil,
      id_eq, Option.getD_some, DEMAND_CONVERSION_FACTOR, st0, preEmpty,
      demandRow100, ReportRow.mk.injEq]
